import Mathlib

/-
Shallow embedding of the ollama client in src/data/ollama_manager.py (class
OllamaManager) and the notebook helper chat_with_ollama in
src/data/ollama_example.py.

Transport effects (requests.get / requests.post / requests.delete /
ollama.Client.chat) are modelled by explicit outcome parameters: each outcome
constructor corresponds to one way the call can return or raise in Python
(`response` with a status code and parsed body, `connectionError` for
requests.exceptions.ConnectionError, `timeout` for requests.exceptions.Timeout,
`otherExc`/`raised`/`exc` for any other exception, carrying str(e)).
Numeric JSON fields and wall-clock durations are modelled as rationals.
Python's `/` raises ZeroDivisionError when the divisor is 0; the embedding of
line 73 makes that raise explicit, since Lean's `/` on ℚ would silently
return 0 there.
-/

/-- A model record from the daemon catalog body, the fields the code reads. -/
structure ModelRecord where
  name : String
  size : Nat
  modified_at : String
  digest : String
  deriving DecidableEq

/-- Outcome of requests.get on /api/tags, with the parsed models list of the body. -/
inductive TagsOutcome where
  | response (status_code : Nat) (models : List ModelRecord)
  | connectionError
  | timeout
  | otherExc (msg : String)
  deriving DecidableEq

/-- Result dict of OllamaManager.check_connection: status connected with
models_count and model names, or status error with a message. -/
inductive ConnResult where
  | connected (models_count : Nat) (models : List String)
  | error (message : String)
  deriving DecidableEq

/-- OllamaManager.check_connection, src/data/ollama_manager.py lines 22-40. -/
def check_connection : TagsOutcome → ConnResult
  | .response code models =>
      if code = 200 then .connected models.length (models.map ModelRecord.name)
      else .error ("HTTP " ++ toString code)
  | .connectionError => .error "Connection refused - Ollama not running"
  | .timeout => .error "Connection timeout"
  | .otherExc e => .error e

/-- OllamaManager.list_models, src/data/ollama_manager.py lines 42-51:
returns the parsed models list on HTTP 200 and the empty list on a non-200
status or on any exception (ConnectionError and Timeout fall under the
catch-all except of line 49). -/
def list_models : TagsOutcome → List ModelRecord
  | .response code models => if code = 200 then models else []
  | .connectionError => []
  | .timeout => []
  | .otherExc _ => []

/-- The fields of one parsed pull-progress JSON object that install_model
reads: optional status, optional numeric completed and total. -/
structure ProgressData where
  status : Option String
  completed : Option ℚ
  total : Option ℚ
  deriving DecidableEq

/-- One line yielded by response.iter_lines(), modelled by what the loop body
of install_model does with it: `blank` is a falsy (empty) line, `malformed` is
a line on which json.loads raises (carrying the exception message), `json` is
a line parsing to one object. -/
inductive ParsedLine where
  | blank
  | malformed (excMsg : String)
  | json (data : ProgressData)
  deriving DecidableEq

/-- An event surfaced (printed) by the install loop: a status phase line or a
progress percentage. -/
inductive Event where
  | statusMsg (s : String)
  | progress (percent : ℚ)
  deriving DecidableEq

/-- The status phase events printed for one parsed object (lines 70-71). -/
def statusEvents : Option String → List Event
  | some s => [Event.statusMsg s]
  | none => []

/-- One iteration of the loop of install_model, lines 67-74: the events it
prints, and the exception message if it raises. A blank line is skipped by the
`if line:` test before any decode or parse. A malformed line raises in
json.loads. A parsed object first surfaces its status if present; then, if
both completed and total are present, Python evaluates completed / total,
which raises ZeroDivisionError (str = "division by zero") when total = 0 and
otherwise surfaces completed / total * 100. -/
def lineStep : ParsedLine → List Event × Option String
  | .blank => ([], none)
  | .malformed e => ([], some e)
  | .json d =>
      match d.completed, d.total with
      | some c, some t =>
          if t = 0 then (statusEvents d.status, some "division by zero")
          else (statusEvents d.status ++ [Event.progress (c / t * 100)], none)
      | _, _ => (statusEvents d.status, none)

/-- The whole loop over response.iter_lines(): the events printed and the
exception (if any) that aborted it. A raise stops the loop at that line; the
remaining lines are never processed, as in Python. -/
def processLines : List ParsedLine → List Event × Option String
  | [] => ([], none)
  | l :: rest =>
      match lineStep l with
      | (evts, some e) => (evts, some e)
      | (evts, none) =>
          let r := processLines rest
          (evts ++ r.1, r.2)

/-- Outcome of requests.post on /api/pull: a response with a status code and a
stream of lines, or the request call itself raising. -/
inductive PullOutcome where
  | response (status_code : Nat) (lines : List ParsedLine)
  | raised (msg : String)
  deriving DecidableEq

/-- The status/message result dicts returned by install_model and
remove_model. -/
inductive OpResult where
  | success (message : String)
  | error (message : String)
  deriving DecidableEq

/-- OllamaManager.install_model, src/data/ollama_manager.py lines 53-81:
the result dict together with the events surfaced before returning. On a
non-200 status the stream is never read; an exception raised inside the loop
is caught by the except of line 80 and becomes an error result, keeping the
events already printed. -/
def install_model (model_name : String) : PullOutcome → OpResult × List Event
  | .raised m => (.error m, [])
  | .response code lines =>
      if code = 200 then
        match processLines lines with
        | (evts, none) => (.success ("Successfully installed " ++ model_name), evts)
        | (evts, some e) => (.error e, evts)
      else (.error ("HTTP " ++ toString code), [])

/-- Outcome of requests.delete on /api/delete. -/
inductive DeleteOutcome where
  | response (status_code : Nat)
  | raised (msg : String)
  deriving DecidableEq

/-- OllamaManager.remove_model, src/data/ollama_manager.py lines 83-92. -/
def remove_model (model_name : String) : DeleteOutcome → OpResult
  | .response code =>
      if code = 200 then .success ("Successfully removed " ++ model_name)
      else .error ("HTTP " ++ toString code)
  | .raised m => .error m

/-- Outcome of the ollama client chat call: a well-formed reply whose
message content is the given string, or the call raising with str(e). -/
inductive ChatOutcome where
  | reply (content : String)
  | exc (msg : String)
  deriving DecidableEq

/-- Result dict of OllamaManager.chat: success with the response text,
success carrying a stream handle, or error with a message. -/
inductive ChatResult where
  | success (response : String)
  | streamSuccess
  | error (message : String)
  deriving DecidableEq

/-- OllamaManager.chat, src/data/ollama_manager.py lines 94-111. The second
component records whether self.client.chat was invoked (a network call): the
method performs no local validation of the message, so the client is called
unconditionally, whatever the model and message arguments are. -/
def chat (model message : String) (stream : Bool) (o : ChatOutcome) :
    ChatResult × Bool :=
  match o with
  | .exc e => (.error e, true)
  | .reply content =>
      if stream then (.streamSuccess, true) else (.success content, true)

/-- chat_with_ollama, src/data/ollama_example.py lines 109-127: returns the
display string and whether ollama.chat was invoked. Python's
`not message.strip()` is true exactly when every character of the message is
whitespace (including the empty message), modelled here by
message.data.all Char.isWhitespace. -/
def chat_with_ollama (model message : String) (o : ChatOutcome) :
    String × Bool :=
  if message.data.all Char.isWhitespace then ("Please enter a message.", false)
  else
    match o with
    | .reply content => (content, true)
    | .exc e => ("Error: " ++ e, true)

/-- Python str.split() with no arguments: split on whitespace and drop the
empty pieces. -/
def pyWords (s : String) : List String :=
  (s.split Char.isWhitespace).filter (fun w => w != "")

/-- Result dict of OllamaManager.benchmark_model on the success path, or an
error with a message. -/
inductive BenchResult where
  | success (model : String) (response_time : ℚ) (response_length : Nat)
      (word_count : Nat) (words_per_second : ℚ)
  | error (message : String)
  deriving DecidableEq

/-- OllamaManager.benchmark_model, src/data/ollama_manager.py lines 113-136.
response_time models end_time - start_time; the inner chat call uses the
default stream=False, so the streamSuccess branch is unreachable (in Python it
would be a KeyError on the missing response key, caught by line 135). -/
def benchmark_model (model test_prompt : String) (o : ChatOutcome)
    (response_time : ℚ) : BenchResult :=
  match chat model test_prompt false o with
  | (.success response_text, _) =>
      let word_count := (pyWords response_text).length
      .success model response_time response_text.length word_count
        (if 0 < response_time then (word_count : ℚ) / response_time else 0)
  | (.streamSuccess, _) => .error "KeyError"
  | (.error m, _) => .error m

/-- Processing a concatenation whose first part raises nothing surfaces the
first part's events and continues into the second part. -/
theorem processLines_append_ok (pre post : List ParsedLine)
    (h : ∀ l ∈ pre, (lineStep l).2 = none) :
    processLines (pre ++ post)
      = ((processLines pre).1 ++ (processLines post).1,
         (processLines post).2) := by
  induction pre with
  | nil => simp [processLines]
  | cons l rest ih =>
      have hl : (lineStep l).2 = none := h l (by simp)
      have hrest : ∀ x ∈ rest, (lineStep x).2 = none :=
        fun x hx => h x (by simp [hx])
      cases hL : lineStep l with
      | mk evts err =>
          rw [hL] at hl
          simp only at hl
          subst hl
          simp only [List.cons_append, processLines, hL, List.append_eq]
          rw [ih hrest]
          simp [List.append_assoc]

/-- C1 counterexample: a progress line with completed = 0 and total = 0 makes
install_model return an error result (the ZeroDivisionError message) and the
following valid line is never processed, so the event with total = 0 is not
skipped and the operation does fail. -/
theorem c1_zero_total_fails_counterexample :
    install_model "m" (.response 200
      [ParsedLine.json ⟨none, some 0, some 0⟩,
       ParsedLine.json ⟨some "success", none, none⟩])
      = (.error "division by zero", []) := by decide

/-- C1 (amended): for a line carrying completed and total with total ≠ 0 the
streamer surfaces completed / total * 100; but when total = 0 the division
raises ZeroDivisionError, which the outer handler turns into an error result:
only the events surfaced before the raise (including that line's status, which
is printed before the division) survive, and the rest of the stream is not
processed. -/
theorem c1_progress_computed_zero_total_errors (name : String)
    (st : Option String) (c t : ℚ) (pre post : List ParsedLine)
    (hpre : ∀ l ∈ pre, (lineStep l).2 = none) (ht : t ≠ 0) :
    install_model name (.response 200 [ParsedLine.json ⟨none, some c, some t⟩])
      = (.success ("Successfully installed " ++ name),
         [Event.progress (c / t * 100)]) ∧
    install_model name
        (.response 200 (pre ++ ParsedLine.json ⟨st, some c, some 0⟩ :: post))
      = (.error "division by zero", (processLines pre).1 ++ statusEvents st) := by
  constructor
  · simp [install_model, processLines, lineStep, statusEvents, ht]
  · have hbadline : lineStep (ParsedLine.json ⟨st, some c, some 0⟩)
        = (statusEvents st, some "division by zero") := by
      simp [lineStep]
    have hcons : processLines (ParsedLine.json ⟨st, some c, some 0⟩ :: post)
        = (statusEvents st, some "division by zero") := by
      simp [processLines, hbadline]
    simp [install_model, processLines_append_ok pre _ hpre, hcons]

/-- Witness for c1_progress_computed_zero_total_errors at concrete inputs. -/
theorem c1_progress_computed_zero_total_errors_witness :
    install_model "m" (.response 200
        [ParsedLine.json ⟨none, some 50, some 100⟩])
      = (.success ("Successfully installed " ++ "m"),
         [Event.progress (50 / 100 * 100)]) ∧
    install_model "m"
        (.response 200 ([ParsedLine.blank]
          ++ ParsedLine.json ⟨some "pulling", some 50, some 0⟩
            :: [ParsedLine.json ⟨some "after", none, none⟩]))
      = (.error "division by zero",
         (processLines [ParsedLine.blank]).1 ++ statusEvents (some "pulling")) :=
  c1_progress_computed_zero_total_errors "m" (some "pulling") 50 100
    [ParsedLine.blank] [ParsedLine.json ⟨some "after", none, none⟩]
    (by decide) (by norm_num)

/-- C2 counterexample: a malformed line between two valid status lines makes
install_model return an error carrying the decode message; only the first
valid event is surfaced and the operation does not end in success. -/
theorem c2_malformed_aborts_counterexample :
    install_model "m" (.response 200
      [ParsedLine.json ⟨some "downloading", none, none⟩,
       ParsedLine.malformed "Expecting value: line 1 column 1 (char 0)",
       ParsedLine.json ⟨some "verifying digest", none, none⟩])
      = (.error "Expecting value: line 1 column 1 (char 0)",
         [Event.statusMsg "downloading"]) := by decide

/-- C2 (amended): a malformed line raises in json.loads and the outer handler
catches it: the events surfaced before that line are kept, but the operation
returns an error with the decode message and none of the following lines is
processed — the stream is aborted, not skipped-and-continued. -/
theorem c2_malformed_line_aborts_stream (name excMsg : String)
    (pre post : List ParsedLine)
    (hpre : ∀ l ∈ pre, (lineStep l).2 = none) :
    install_model name
        (.response 200 (pre ++ ParsedLine.malformed excMsg :: post))
      = (.error excMsg, (processLines pre).1) := by
  have hcons : processLines (ParsedLine.malformed excMsg :: post)
      = ([], some excMsg) := by
    simp [processLines, lineStep]
  simp [install_model, processLines_append_ok pre _ hpre, hcons]

/-- Witness for c2_malformed_line_aborts_stream at concrete inputs. -/
theorem c2_malformed_line_aborts_stream_witness :
    install_model "m"
        (.response 200 ([ParsedLine.json ⟨some "downloading", none, none⟩]
          ++ ParsedLine.malformed "bad json"
            :: [ParsedLine.json ⟨some "verifying", none, none⟩]))
      = (.error "bad json",
         (processLines [ParsedLine.json ⟨some "downloading", none, none⟩]).1) :=
  c2_malformed_line_aborts_stream "m" "bad json"
    [ParsedLine.json ⟨some "downloading", none, none⟩]
    [ParsedLine.json ⟨some "verifying", none, none⟩] (by decide)

/-- C3 counterexample: OllamaManager.chat with the empty message still invokes
the client (the network-call flag is true) and, when the daemon replies,
returns a success result rather than a validation error. -/
theorem c3_empty_message_contacts_daemon_counterexample :
    chat "llama3" "" false (.reply "Hello!") = (.success "Hello!", true) := by
  decide

/-- C3 (amended): only the notebook helper chat_with_ollama validates locally:
for an empty or whitespace-only message it returns the string
"Please enter a message." without invoking ollama.chat; OllamaManager.chat
performs no such validation and always makes the client call, whatever the
message and transport outcome. -/
theorem c3_validation_only_in_notebook_helper (model message : String)
    (stream : Bool) (o : ChatOutcome)
    (h : message.data.all Char.isWhitespace = true) :
    chat_with_ollama model message o = ("Please enter a message.", false) ∧
    (chat model message stream o).2 = true := by
  constructor
  · simp [chat_with_ollama, h]
  · cases o <;> cases stream <;> simp [chat]

/-- Witness for c3_validation_only_in_notebook_helper at concrete inputs. -/
theorem c3_validation_only_in_notebook_helper_witness :
    chat_with_ollama "llama3" "   " (.reply "Hello!")
      = ("Please enter a message.", false) ∧
    (chat "llama3" "   " false (.reply "Hello!")).2 = true :=
  c3_validation_only_in_notebook_helper "llama3" "   " false (.reply "Hello!")
    (by decide)

/-- C5: check_connection classifies every outcome as the claim states: HTTP 200
yields connected with the model count and name list, a non-200 status yields
an error with that code, connection-refused yields the not-running error,
timeout yields the timeout error, any other exception yields an error with its
message; being a total Lean function, it returns a result on every outcome. -/
theorem c5_check_connection_classification (models : List ModelRecord)
    (code : Nat) (hcode : code ≠ 200) (e : String) :
    check_connection (.response 200 models)
      = .connected models.length (models.map ModelRecord.name) ∧
    check_connection (.response code models)
      = .error ("HTTP " ++ toString code) ∧
    check_connection .connectionError
      = .error "Connection refused - Ollama not running" ∧
    check_connection .timeout = .error "Connection timeout" ∧
    check_connection (.otherExc e) = .error e := by
  exact ⟨by simp [check_connection], by simp [check_connection, hcode],
    rfl, rfl, rfl⟩

/-- Witness for c5_check_connection_classification at concrete inputs. -/
theorem c5_check_connection_classification_witness :
    check_connection (.response 200 [⟨"llama3", 123, "2024", "abc"⟩])
      = .connected [(⟨"llama3", 123, "2024", "abc"⟩ : ModelRecord)].length
          ([⟨"llama3", 123, "2024", "abc"⟩].map ModelRecord.name) ∧
    check_connection (.response 404 [⟨"llama3", 123, "2024", "abc"⟩])
      = .error ("HTTP " ++ toString 404) ∧
    check_connection .connectionError
      = .error "Connection refused - Ollama not running" ∧
    check_connection .timeout = .error "Connection timeout" ∧
    check_connection (.otherExc "boom") = .error "boom" :=
  c5_check_connection_classification [⟨"llama3", 123, "2024", "abc"⟩] 404
    (by decide) "boom"

/-- C6: on a non-200 status at connection time, install_model returns an error
with that HTTP code and surfaces no event at all — the result does not depend
on the stream lines, which are never read. -/
theorem c6_install_non200_short_circuits (name : String) (code : Nat)
    (hcode : code ≠ 200) (lines : List ParsedLine) :
    install_model name (.response code lines)
      = (.error ("HTTP " ++ toString code), []) := by
  simp [install_model, hcode]

/-- Witness for c6_install_non200_short_circuits at concrete inputs. -/
theorem c6_install_non200_short_circuits_witness :
    install_model "m" (.response 404
        [ParsedLine.json ⟨some "downloading", some 50, some 100⟩])
      = (.error ("HTTP " ++ toString 404), []) :=
  c6_install_non200_short_circuits "m" 404 (by decide)
    [ParsedLine.json ⟨some "downloading", some 50, some 100⟩]

/-- C4 counterexample: list_models yields the same bare empty list for a
refused connection as for a successful response with an empty catalog, so a
transport failure is not reported as a tagged error value — the Model Lister
does not follow the uniform tagged result shape. -/
theorem c4_lister_not_tagged_counterexample :
    list_models TagsOutcome.connectionError = ([] : List ModelRecord) ∧
    list_models TagsOutcome.connectionError
      = list_models (.response 200 []) := by decide

/-- C4 (amended): check_connection, install_model, remove_model, chat and
benchmark_model each return a tagged success-or-error value for every
transport outcome, and as total Lean functions no exception escapes them; the
Model Lister is the exception to the uniform shape: list_models returns a bare
list, which is empty on every failure outcome (non-200 status, connection
refused, timeout, or any other exception). -/
theorem c4_boundary_results (code : Nat) (hcode : code ≠ 200)
    (models : List ModelRecord) (e : String) :
    (∀ o : TagsOutcome,
        (∃ n ms, check_connection o = ConnResult.connected n ms) ∨
        ∃ m, check_connection o = ConnResult.error m) ∧
    (∀ (name : String) (po : PullOutcome),
        (∃ m, (install_model name po).1 = OpResult.success m) ∨
        ∃ m, (install_model name po).1 = OpResult.error m) ∧
    (∀ (name : String) (dout : DeleteOutcome),
        (∃ m, remove_model name dout = OpResult.success m) ∨
        ∃ m, remove_model name dout = OpResult.error m) ∧
    (∀ (model message : String) (stream : Bool) (o : ChatOutcome),
        (∃ r, (chat model message stream o).1 = ChatResult.success r) ∨
        (chat model message stream o).1 = ChatResult.streamSuccess ∨
        ∃ m, (chat model message stream o).1 = ChatResult.error m) ∧
    (∀ (model prompt : String) (o : ChatOutcome) (rt : ℚ),
        (∃ rl wc wps, benchmark_model model prompt o rt
          = BenchResult.success model rt rl wc wps) ∨
        ∃ m, benchmark_model model prompt o rt = BenchResult.error m) ∧
    (list_models (.response code models) = [] ∧
     list_models TagsOutcome.connectionError = [] ∧
     list_models TagsOutcome.timeout = [] ∧
     list_models (.otherExc e) = []) := by
  refine ⟨?_, ?_, ?_, ?_, ?_, by simp [list_models, hcode], rfl, rfl, rfl⟩
  · intro o
    cases o with
    | response c ms =>
        by_cases h : c = 200
        · subst h
          exact Or.inl ⟨ms.length, ms.map ModelRecord.name,
            by simp [check_connection]⟩
        · exact Or.inr ⟨"HTTP " ++ toString c, by simp [check_connection, h]⟩
    | connectionError => exact Or.inr ⟨_, rfl⟩
    | timeout => exact Or.inr ⟨_, rfl⟩
    | otherExc s => exact Or.inr ⟨s, rfl⟩
  · intro name po
    cases po with
    | raised m => exact Or.inr ⟨m, rfl⟩
    | response c lines =>
        by_cases h : c = 200
        · subst h
          rcases hpl : processLines lines with ⟨evts, err⟩
          cases err with
          | none =>
              exact Or.inl ⟨"Successfully installed " ++ name,
                by simp [install_model, hpl]⟩
          | some msg => exact Or.inr ⟨msg, by simp [install_model, hpl]⟩
        · exact Or.inr ⟨"HTTP " ++ toString c, by simp [install_model, h]⟩
  · intro name dout
    cases dout with
    | raised m => exact Or.inr ⟨m, rfl⟩
    | response c =>
        by_cases h : c = 200
        · subst h
          exact Or.inl ⟨"Successfully removed " ++ name, by simp [remove_model]⟩
        · exact Or.inr ⟨"HTTP " ++ toString c, by simp [remove_model, h]⟩
  · intro model message stream o
    cases o with
    | exc m => exact Or.inr (Or.inr ⟨m, rfl⟩)
    | reply content =>
        cases stream with
        | true => exact Or.inr (Or.inl (by simp [chat]))
        | false => exact Or.inl ⟨content, by simp [chat]⟩
  · intro model prompt o rt
    cases o with
    | exc m => exact Or.inr ⟨m, rfl⟩
    | reply content =>
        exact Or.inl ⟨content.length, (pyWords content).length,
          (if 0 < rt then ((pyWords content).length : ℚ) / rt else 0),
          by simp [benchmark_model, chat]⟩

/-- Witness for c4_boundary_results at concrete inputs. -/
theorem c4_boundary_results_witness :
    (∀ o : TagsOutcome,
        (∃ n ms, check_connection o = ConnResult.connected n ms) ∨
        ∃ m, check_connection o = ConnResult.error m) ∧
    (∀ (name : String) (po : PullOutcome),
        (∃ m, (install_model name po).1 = OpResult.success m) ∨
        ∃ m, (install_model name po).1 = OpResult.error m) ∧
    (∀ (name : String) (dout : DeleteOutcome),
        (∃ m, remove_model name dout = OpResult.success m) ∨
        ∃ m, remove_model name dout = OpResult.error m) ∧
    (∀ (model message : String) (stream : Bool) (o : ChatOutcome),
        (∃ r, (chat model message stream o).1 = ChatResult.success r) ∨
        (chat model message stream o).1 = ChatResult.streamSuccess ∨
        ∃ m, (chat model message stream o).1 = ChatResult.error m) ∧
    (∀ (model prompt : String) (o : ChatOutcome) (rt : ℚ),
        (∃ rl wc wps, benchmark_model model prompt o rt
          = BenchResult.success model rt rl wc wps) ∨
        ∃ m, benchmark_model model prompt o rt = BenchResult.error m) ∧
    (list_models (.response 500 []) = [] ∧
     list_models TagsOutcome.connectionError = [] ∧
     list_models TagsOutcome.timeout = [] ∧
     list_models (.otherExc "boom") = []) :=
  c4_boundary_results 500 (by decide) [] "boom"

/-- The install loop over a stream of pure progress lines with a fixed
nonzero total surfaces exactly one percentage event per line and raises
nothing. -/
theorem processLines_progress_map (t : ℚ) (ht : t ≠ 0) (cs : List ℚ) :
    processLines (cs.map fun c => ParsedLine.json ⟨none, some c, some t⟩)
      = (cs.map fun c => Event.progress (c / t * 100), none) := by
  induction cs with
  | nil => simp [processLines]
  | cons c rest ih => simp [processLines, lineStep, statusEvents, ht, ih]

/-- C7: over a stream of progress lines with fixed total t > 0 and
non-decreasing completed values, install_model succeeds surfacing exactly the
percentages completed / t * 100 in order, those percentages are monotonically
non-decreasing, and when the last completed value equals t the last surfaced
percentage is exactly 100. -/
theorem c7_progress_monotone (name : String) (t : ℚ) (ht : 0 < t)
    (cs : List ℚ) (hmono : cs.Chain' (· ≤ ·)) :
    install_model name
        (.response 200 (cs.map fun c => ParsedLine.json ⟨none, some c, some t⟩))
      = (.success ("Successfully installed " ++ name),
         cs.map fun c => Event.progress (c / t * 100)) ∧
    (cs.map fun c => c / t * 100).Chain' (· ≤ ·) ∧
    (cs.getLast? = some t →
      (cs.map fun c => c / t * 100).getLast? = some 100) := by
  refine ⟨?_, ?_, ?_⟩
  · simp [install_model, processLines_progress_map t (ne_of_gt ht) cs]
  · exact List.chain'_map_of_chain' _ (fun a b hab => by gcongr) hmono
  · intro hlast
    rw [List.getLast?_map, hlast]
    simp [div_self (ne_of_gt ht)]

/-- Witness for c7_progress_monotone at concrete inputs. -/
theorem c7_progress_monotone_witness :
    install_model "m"
        (.response 200 ([0, 50, 100].map
          fun c => ParsedLine.json ⟨none, some c, some (100 : ℚ)⟩))
      = (.success ("Successfully installed " ++ "m"),
         [0, 50, 100].map fun c => Event.progress (c / (100 : ℚ) * 100)) ∧
    ([0, 50, 100].map fun c => c / (100 : ℚ) * 100).Chain' (· ≤ ·) ∧
    (([(0 : ℚ), 50, 100].getLast? = some 100) →
      ([0, 50, 100].map fun c => c / (100 : ℚ) * 100).getLast? = some 100) :=
  c7_progress_monotone "m" 100 (by norm_num) [0, 50, 100]
    (by norm_num [List.chain'_cons, List.chain'_singleton])

/-- C8: on a successful chat, benchmark_model returns the response character
length, the whitespace-split word count, and word_count / response_time as
throughput when response_time > 0, and 0 (still a success result) when
response_time = 0; when the chat call fails, the error message is forwarded
unchanged. -/
theorem c8_benchmark (model prompt content e : String) (rt : ℚ) :
    (0 < rt → benchmark_model model prompt (.reply content) rt
      = .success model rt content.length (pyWords content).length
          (((pyWords content).length : ℚ) / rt)) ∧
    benchmark_model model prompt (.reply content) 0
      = .success model 0 content.length (pyWords content).length 0 ∧
    benchmark_model model prompt (.exc e) rt = .error e := by
  refine ⟨fun hrt => ?_, ?_, rfl⟩
  · simp [benchmark_model, chat, hrt]
  · simp [benchmark_model, chat]

/-- Witness for c8_benchmark at concrete inputs. -/
theorem c8_benchmark_witness :
    ((0 : ℚ) < 2 → benchmark_model "m" "Hello, how are you?"
        (.reply "fine thanks") 2
      = .success "m" 2 ("fine thanks").length (pyWords "fine thanks").length
          (((pyWords "fine thanks").length : ℚ) / 2)) ∧
    benchmark_model "m" "Hello, how are you?" (.reply "fine thanks") 0
      = .success "m" 0 ("fine thanks").length (pyWords "fine thanks").length 0 ∧
    benchmark_model "m" "Hello, how are you?" (.exc "boom") 2
      = .error "boom" :=
  c8_benchmark "m" "Hello, how are you?" "fine thanks" "boom" 2

/-- C9: list_models returns the daemon's model records unchanged and in order
on HTTP 200 (the empty list when none are installed), and the empty list,
without raising, on a non-200 status, a refused connection, a timeout, or any
other exception. -/
theorem c9_list_models_classification (models : List ModelRecord) (code : Nat)
    (hcode : code ≠ 200) (e : String) :
    list_models (.response 200 models) = models ∧
    list_models (.response 200 []) = [] ∧
    list_models (.response code models) = [] ∧
    list_models TagsOutcome.connectionError = [] ∧
    list_models TagsOutcome.timeout = [] ∧
    list_models (.otherExc e) = [] := by
  exact ⟨by simp [list_models], rfl, by simp [list_models, hcode],
    rfl, rfl, rfl⟩

/-- Witness for c9_list_models_classification at concrete inputs. -/
theorem c9_list_models_classification_witness :
    list_models (.response 200 [⟨"llama3", 123, "2024", "abc"⟩])
      = [(⟨"llama3", 123, "2024", "abc"⟩ : ModelRecord)] ∧
    list_models (.response 200 []) = [] ∧
    list_models (.response 500 [⟨"llama3", 123, "2024", "abc"⟩]) = [] ∧
    list_models TagsOutcome.connectionError = [] ∧
    list_models TagsOutcome.timeout = [] ∧
    list_models (.otherExc "boom") = [] :=
  c9_list_models_classification [⟨"llama3", 123, "2024", "abc"⟩] 500
    (by decide) "boom"

/-- Deleting one blank line anywhere in a stream leaves the loop's events and
exception unchanged, whatever the surrounding lines are (including streams
that later abort). -/
theorem processLines_blank_inert (pre post : List ParsedLine) :
    processLines (pre ++ ParsedLine.blank :: post) = processLines (pre ++ post) := by
  induction pre with
  | nil => simp [processLines, lineStep]
  | cons l rest ih =>
      cases hL : lineStep l with
      | mk evts err => cases err <;> simp [processLines, hL, ih]

/-- C10: blank lines are dropped by the `if line:` test before any decode or
parse: one loop iteration on a blank line surfaces no event and raises
nothing; for every input stream, a blank line anywhere in it changes neither
the surfaced events nor the outcome, at the loop level and for the whole
install_model call; and a 200 response whose lines are all blank surfaces no
event and ends in success. -/
theorem c10_blank_lines_skipped (name : String) (pre post lines : List ParsedLine)
    (hblank : ∀ l ∈ lines, l = ParsedLine.blank) :
    lineStep ParsedLine.blank = ([], none) ∧
    processLines (pre ++ ParsedLine.blank :: post) = processLines (pre ++ post) ∧
    install_model name (.response 200 (pre ++ ParsedLine.blank :: post))
      = install_model name (.response 200 (pre ++ post)) ∧
    install_model name (.response 200 lines)
      = (.success ("Successfully installed " ++ name), []) := by
  refine ⟨rfl, processLines_blank_inert pre post, ?_, ?_⟩
  · simp [install_model, processLines_blank_inert pre post]
  · have h : processLines lines = ([], none) := by
      induction lines with
      | nil => rfl
      | cons l rest ih =>
          have hl : l = ParsedLine.blank := hblank l (by simp)
          subst hl
          have hrest := ih (fun x hx => hblank x (by simp [hx]))
          simp [processLines, lineStep, hrest]
    simp [install_model, h]

/-- Witness for c10_blank_lines_skipped at concrete inputs: a blank line
between a status line and a progress line changes nothing, and an all-blank
stream succeeds with no event. -/
theorem c10_blank_lines_skipped_witness :
    lineStep ParsedLine.blank = ([], none) ∧
    processLines ([ParsedLine.json ⟨some "downloading", none, none⟩]
        ++ ParsedLine.blank :: [ParsedLine.json ⟨none, some 50, some 100⟩])
      = processLines ([ParsedLine.json ⟨some "downloading", none, none⟩]
        ++ [ParsedLine.json ⟨none, some 50, some 100⟩]) ∧
    install_model "m" (.response 200
        ([ParsedLine.json ⟨some "downloading", none, none⟩]
          ++ ParsedLine.blank :: [ParsedLine.json ⟨none, some 50, some 100⟩]))
      = install_model "m" (.response 200
          ([ParsedLine.json ⟨some "downloading", none, none⟩]
            ++ [ParsedLine.json ⟨none, some 50, some 100⟩])) ∧
    install_model "m" (.response 200 [ParsedLine.blank, ParsedLine.blank])
      = (.success ("Successfully installed " ++ "m"), []) :=
  c10_blank_lines_skipped "m" [ParsedLine.json ⟨some "downloading", none, none⟩]
    [ParsedLine.json ⟨none, some 50, some 100⟩]
    [ParsedLine.blank, ParsedLine.blank] (by decide)
